import Mathlib

/-!
Verification of the TrustLensAI quick-start bootstrap script
(`quick_start.py`).

The script is sequential, side-effecting setup logic. We embed it
shallowly: the process environment `os.environ` becomes an association
list of string pairs, the configuration file becomes an
`Option String` (absent / contents), subprocess invocations become
explicit outcome parameters, and a Python exception that may propagate
out of a function is modelled with `Except String`.

String manipulation (`str.strip`, `str.split("=", 1)`,
`str.splitlines`) is embedded character-list by character-list so that
every definition evaluates by kernel reduction.
-/

namespace TrustLens

/-- The process environment `os.environ`: an association list from
variable names to values, looked up at the first matching key. -/
abbrev Env := List (String × String)

/-- First-match lookup in the environment, i.e. `os.environ.get` /
`os.getenv`: `none` when the key is absent. -/
def envLookup : Env → String → Option String
  | [], _ => none
  | (k', v) :: rest, k => if k' = k then some v else envLookup rest k

/-- The characters Python's `str.strip()` removes by default
(ASCII whitespace). -/
def isPyWhitespace (c : Char) : Bool :=
  c == ' ' || c == '\t' || c == '\n' || c == '\r' || c == '\x0b' || c == '\x0c'

/-- Drop the longest suffix whose characters satisfy `p`. -/
def dropTrailing (p : Char → Bool) (cs : List Char) : List Char :=
  (cs.reverse.dropWhile p).reverse

/-- Python `s.strip()`: remove leading and trailing whitespace. -/
def pyStrip (s : String) : String :=
  String.mk (dropTrailing isPyWhitespace (s.data.dropWhile isPyWhitespace))

/-- Python `s.strip(c)` for a single character `c`: remove ALL leading
and trailing occurrences of `c` (not just one layer). -/
def pyStripChar (c : Char) (s : String) : String :=
  String.mk (dropTrailing (fun x => x == c) (s.data.dropWhile (fun x => x == c)))

/-- Python `line.split("=", 1)`: the part before the first `'='` and
the part after it.  When the line has no `'='` the second component is
empty (the caller only uses this after checking `"=" in line`). -/
def splitFirstEq (s : String) : String × String :=
  (String.mk (s.data.takeWhile (fun c => c != '=')),
   String.mk ((s.data.dropWhile (fun c => c != '=')).drop 1))

/-- Python `line.startswith("#")`. -/
def pyStartsWithHash (s : String) : Bool :=
  match s.data with
  | '#' :: _ => true
  | _ => false

/-- Worker for `pySplitlines`, accumulating the current line in
reverse.  Recognises the terminators `\n`, `\r\n` and `\r`. -/
def splitlinesAux : List Char → List Char → List String
  | [], acc => if acc.isEmpty then [] else [String.mk acc.reverse]
  | '\r' :: '\n' :: rest, acc => String.mk acc.reverse :: splitlinesAux rest []
  | '\r' :: rest, acc => String.mk acc.reverse :: splitlinesAux rest []
  | '\n' :: rest, acc => String.mk acc.reverse :: splitlinesAux rest []
  | c :: rest, acc => splitlinesAux rest (c :: acc)

/-- Python `s.splitlines()` (for the common terminators `\n`, `\r\n`,
`\r`): the list of lines, a trailing terminator producing no extra
empty line. -/
def pySplitlines (s : String) : List String :=
  splitlinesAux s.data []

/-- The key parsed from a (stripped) configuration line:
`k = line.split("=", 1)[0].strip()` (quick_start.py lines 31-32). -/
def lineKey (line : String) : String :=
  pyStrip (splitFirstEq line).1

/-- The value parsed from a (stripped) configuration line:
`v = line.split("=", 1)[1].strip().strip('"').strip("'")`
(quick_start.py lines 31 and 33). -/
def lineVal (line : String) : String :=
  pyStripChar '\'' (pyStripChar '"' (pyStrip (splitFirstEq line).2))

/-- One iteration of the loader's `for raw in ...splitlines()` loop
(quick_start.py lines 27-36): skip blank lines, comments and lines
without `'='`; otherwise parse `k`/`v` and set `os.environ[k] = v`
only when `k` is non-empty and not already present. -/
def processLine (env : Env) (raw : String) : Env :=
  if (pyStrip raw).data.isEmpty then env
  else if pyStartsWithHash (pyStrip raw) then env
  else if !((pyStrip raw).data.contains '=') then env
  else if !((lineKey (pyStrip raw)).data.isEmpty)
          && (envLookup env (lineKey (pyStrip raw))).isNone then
    env ++ [(lineKey (pyStrip raw), lineVal (pyStrip raw))]
  else env

/-- The loader's whole loop over the file's lines. -/
def load_env_lines (env : Env) (lines : List String) : Env :=
  lines.foldl processLine env

/-- Result of `_load_env_file`: the updated environment and the
warnings logged. -/
structure LoadResult where
  env : Env
  warnings : List String
  deriving DecidableEq, Repr

/-- `_load_env_file` (quick_start.py lines 22-38).  `file` is the
configuration file: `none` when `env_path.exists()` is false, otherwise
its contents.  `readExn` is the outcome of `env_path.read_text`:
`some e` when reading or decoding raises an exception with message `e`.
A `.error` result would model an exception propagating to the caller;
the `try/except Exception` block catches everything, so every branch
returns `.ok`. -/
def _load_env_file (env : Env) (file : Option String) (readExn : Option String) :
    Except String LoadResult :=
  match file with
  | none => .ok ⟨env, []⟩
  | some content =>
    match readExn with
    | some e => .ok ⟨env, ["⚠️  Could not parse .env file: " ++ e]⟩
    | none => .ok ⟨load_env_lines env (pySplitlines content), []⟩

/-- Spec-side description of the loader's per-line parse, following
the specification's contract for the Environment Loader: strip the raw
line; skip it when blank, a comment, without `'='`, or with an empty
key; otherwise yield the trimmed key and the trimmed, quote-stripped
value (all leading and trailing double quotes removed, then all
leading and trailing single quotes). -/
def specParseLine (raw : String) : Option (String × String) :=
  if (pyStrip raw).data.isEmpty then none
  else if pyStartsWithHash (pyStrip raw) then none
  else if !((pyStrip raw).data.contains '=') then none
  else if (lineKey (pyStrip raw)).data.isEmpty then none
  else some (lineKey (pyStrip raw), lineVal (pyStrip raw))

/-- Spec-side quote stripping as the claim words it: remove exactly one
layer of MATCHING surrounding quote characters (single or double) from
the value, and nothing otherwise. -/
def specOneLayerStrip (s : String) : String :=
  match s.data with
  | [] => s
  | [_] => s
  | c :: rest =>
    if (c == '"' || c == '\'') && rest.getLast? == some c then
      String.mk (c :: rest).dropLast.tail
    else s

/-- Python truthiness test `not google_api_key` on the result of
`os.getenv`: true when the variable is absent or its value is the
empty string. -/
def pyFalsy : Option String → Bool
  | none => true
  | some s => s.data.isEmpty

/-- The `.env` template written by `check_environment_variables`
(quick_start.py lines 66-72). -/
def ENV_TEMPLATE : String :=
"# TrustLensAI  Environment Variables
GOOGLE_API_KEY=your_gemini_api_key_here
SECRET_KEY=change-this-in-production
HOST=0.0.0.0
PORT=5001
DEBUG=True
"

/-- The non-comment lines of a file: what remains after dropping
full-line `#` comments. -/
def settingLines (s : String) : List String :=
  (pySplitlines s).filter (fun l => !(pyStartsWithHash l))

/-- The environment after `_load_env_file` ran: unchanged when the
file is absent or reading it raised, otherwise extended by the parsed
lines. -/
def envAfterLoad (env : Env) (file : Option String) (readExn : Option String) : Env :=
  match file, readExn with
  | none, _ => env
  | some _, some _ => env
  | some content, none => load_env_lines env (pySplitlines content)

/-- Result of `check_environment_variables`: the boolean return value,
the environment (as mutated by the loader) and the configuration file
after the call (`none` = still absent). -/
structure CheckResult where
  ok : Bool
  env : Env
  file : Option String
  deriving DecidableEq, Repr

/-- `check_environment_variables` (quick_start.py lines 50-82): load
the configuration file, then test `GOOGLE_API_KEY`.  When the value is
falsy: write the template if the file does not exist, leave it
untouched otherwise, and return false.  When truthy: return true.
The file stays what it was in every branch except the template
write. -/
def check_environment_variables (env : Env) (file : Option String)
    (readExn : Option String) : Except String CheckResult :=
  match _load_env_file env file readExn with
  | .error e => .error e
  | .ok r =>
    if pyFalsy (envLookup r.env "GOOGLE_API_KEY") then
      match file with
      | none => .ok ⟨false, r.env, some ENV_TEMPLATE⟩
      | some c => .ok ⟨false, r.env, some c⟩
    else .ok ⟨true, r.env, file⟩

/-- Outcome of one `subprocess.run(..., check=True, capture_output=True,
text=True)` call: either the child ran to completion with an exit code
and captured output streams, or spawning it raised `FileNotFoundError`. -/
inductive RunOutcome where
  | completed (exitCode : Int) (stdout stderr : String)
  | fileNotFound (msg : String)
  deriving DecidableEq, Repr

/-- Result of one setup step: the boolean return value and the log
messages emitted, in order. -/
structure StepResult where
  ok : Bool
  logs : List String
  deriving DecidableEq, Repr

/-- `install_dependencies` (quick_start.py lines 85-104).  With
`check=True` the run raises `CalledProcessError` exactly when the exit
code is non-zero; that handler logs the captured stderr.  The
`FileNotFoundError` handler logs a fixed "not found" message.  Both
return false; a zero exit code returns true. -/
def install_dependencies (o : RunOutcome) : StepResult :=
  match o with
  | .completed code _ stderr =>
    if code = 0 then
      ⟨true, ["Installing Python dependencies...",
              "✅ Python dependencies installed successfully"]⟩
    else
      ⟨false, ["Installing Python dependencies...",
               "❌ Failed to install dependencies: " ++ stderr]⟩
  | .fileNotFound _ =>
    ⟨false, ["Installing Python dependencies...",
             "❌ requirements.txt not found"]⟩

/-- Result of `setup_databases`: the boolean return value, the setup
programs actually invoked (in order) and the log messages emitted. -/
structure DbResult where
  ok : Bool
  invoked : List String
  logs : List String
  deriving DecidableEq, Repr

/-- `setup_databases` (quick_start.py lines 126-151): run
`setup_database.py`; only if it exits zero, run `setup_chromadb.py`.
A non-zero exit raises `CalledProcessError`, caught by the handler
that logs the captured stderr and returns false — so a failure of the
first program means the second is never invoked.  `FileNotFoundError`
is NOT caught here and propagates (`.error`). -/
def setup_databases (r1 r2 : RunOutcome) : Except String DbResult :=
  match r1 with
  | .fileNotFound m => .error m
  | .completed c1 _ e1 =>
    if c1 = 0 then
      match r2 with
      | .fileNotFound m => .error m
      | .completed c2 _ e2 =>
        if c2 = 0 then
          .ok ⟨true, ["setup_database.py", "setup_chromadb.py"],
               ["Initializing databases...",
                "Setting up SQLite governance database...",
                "✅ SQLite database initialized",
                "Setting up ChromaDB knowledge store...",
                "✅ ChromaDB knowledge store initialized"]⟩
        else
          .ok ⟨false, ["setup_database.py", "setup_chromadb.py"],
               ["Initializing databases...",
                "Setting up SQLite governance database...",
                "✅ SQLite database initialized",
                "Setting up ChromaDB knowledge store...",
                "❌ Database setup failed: " ++ e2]⟩
    else
      .ok ⟨false, ["setup_database.py"],
           ["Initializing databases...",
            "Setting up SQLite governance database...",
            "❌ Database setup failed: " ++ e1]⟩

/-! ### Helper lemmas about environment lookup and the loader loop -/

theorem envLookup_append_of_isSome (env l : Env) (k : String)
    (h : (envLookup env k).isSome = true) :
    envLookup (env ++ l) k = envLookup env k := by
  induction env with
  | nil => simp [envLookup] at h
  | cons p rest ih =>
    obtain ⟨k', v⟩ := p
    by_cases hk : k' = k
    · simp [envLookup, hk]
    · simp only [envLookup, if_neg hk] at h
      simp only [List.cons_append, envLookup, if_neg hk]
      exact ih h

theorem envLookup_append_single_of_none (env : Env) (k v : String)
    (h : envLookup env k = none) :
    envLookup (env ++ [(k, v)]) k = some v := by
  induction env with
  | nil => simp [envLookup]
  | cons p rest ih =>
    obtain ⟨k', v'⟩ := p
    by_cases hk : k' = k
    · simp [envLookup, hk] at h
    · simp only [envLookup, if_neg hk] at h
      simp only [List.cons_append, envLookup, if_neg hk]
      exact ih h

theorem processLine_preserves (env : Env) (raw k : String)
    (h : (envLookup env k).isSome = true) :
    envLookup (processLine env raw) k = envLookup env k := by
  unfold processLine
  split
  · rfl
  · split
    · rfl
    · split
      · rfl
      · split
        · exact envLookup_append_of_isSome env _ k h
        · rfl

theorem load_env_lines_preserves (lines : List String) (env : Env) (k : String)
    (h : (envLookup env k).isSome = true) :
    envLookup (load_env_lines env lines) k = envLookup env k := by
  induction lines generalizing env with
  | nil => rfl
  | cons raw rest ih =>
    have hp := processLine_preserves env raw k h
    have hs : (envLookup (processLine env raw) k).isSome = true := by
      rw [hp]; exact h
    show envLookup (load_env_lines (processLine env raw) rest) k = envLookup env k
    rw [ih (processLine env raw) hs, hp]

theorem processLine_additive (env : Env) (raw : String) :
    ∃ added : Env, processLine env raw = env ++ added := by
  unfold processLine
  split
  · exact ⟨[], by simp⟩
  · split
    · exact ⟨[], by simp⟩
    · split
      · exact ⟨[], by simp⟩
      · split
        · exact ⟨_, rfl⟩
        · exact ⟨[], by simp⟩

theorem load_env_lines_additive (lines : List String) (env : Env) :
    ∃ added : Env, load_env_lines env lines = env ++ added := by
  induction lines generalizing env with
  | nil => exact ⟨[], by simp [load_env_lines]⟩
  | cons raw rest ih =>
    obtain ⟨a1, h1⟩ := processLine_additive env raw
    obtain ⟨a2, h2⟩ := ih (processLine env raw)
    refine ⟨a1 ++ a2, ?_⟩
    show load_env_lines (processLine env raw) rest = env ++ (a1 ++ a2)
    rw [h2, h1, List.append_assoc]

theorem processLine_sets (env : Env) (raw k v : String)
    (hp : specParseLine raw = some (k, v)) (h : envLookup env k = none) :
    envLookup (processLine env raw) k = some v := by
  by_cases g1 : (pyStrip raw).data = []
  · simp [specParseLine, g1] at hp
  by_cases g2 : pyStartsWithHash (pyStrip raw) = true
  · simp [specParseLine, g1, g2] at hp
  by_cases g3 : '=' ∈ (pyStrip raw).data
  case neg => simp [specParseLine, g1, g2, g3] at hp
  by_cases g4 : (lineKey (pyStrip raw)).data = []
  · simp [specParseLine, g1, g2, g3, g4] at hp
  · have hkv : lineKey (pyStrip raw) = k ∧ lineVal (pyStrip raw) = v := by
      simpa [specParseLine, g1, g2, g3, g4] using hp
    obtain ⟨hk, hv⟩ := hkv
    subst hk; subst hv
    have happ := envLookup_append_single_of_none env (lineKey (pyStrip raw))
      (lineVal (pyStrip raw)) h
    simp [processLine, g1, g2, g3, g4, h, happ]

theorem load_env_lines_append (env : Env) (l1 l2 : List String) :
    load_env_lines env (l1 ++ l2) = load_env_lines (load_env_lines env l1) l2 := by
  simp [load_env_lines, List.foldl_append]

/-! ### Claims about the Environment Loader -/

/-- C1 (counterexample): the loader does NOT strip just one layer of
matching surrounding quotes.  On the well-formed line `FOO="'bar'"`
the claimed rule yields `'bar'` (the single quotes are the value's
content, protected by the double quotes), but the code's
`.strip('"').strip("'")` yields `bar`. -/
theorem envLoader_one_layer_quote_refuted :
    envLookup (load_env_lines [] ["FOO=\"'bar'\""]) "FOO" = some "bar" ∧
    specOneLayerStrip (pyStrip "\"'bar'\"") = "'bar'" ∧
    ("bar" : String) ≠ "'bar'" :=
  ⟨rfl, rfl, by decide⟩

/-- C1 (amended): for every well-formed `KEY=VALUE` line, the loader
splits on the first `'='`, trims surrounding whitespace from both
parts, and strips ALL leading and trailing double-quote characters and
then ALL leading and trailing single-quote characters from the value
(matching not required); for a key not already in the environment the
parsed value is stored, so `FOO="bar"` yields `bar` for `FOO`. -/
theorem envLoader_parses_wellformed_line (env : Env) (raw k v : String)
    (hp : specParseLine raw = some (k, v)) (h : envLookup env k = none) :
    envLookup (processLine env raw) k = some v :=
  processLine_sets env raw k v hp h

/-- C1 witness: the claim's own example, `FOO="bar"` on an empty
environment, yields value `bar` for key `FOO`. -/
theorem envLoader_parses_wellformed_line_witness :
    specParseLine "FOO=\"bar\"" = some ("FOO", "bar") ∧
    envLookup ([] : Env) "FOO" = none ∧
    envLookup (processLine [] "FOO=\"bar\"") "FOO" = some "bar" :=
  ⟨rfl, rfl, envLoader_parses_wellformed_line [] "FOO=\"bar\"" "FOO" "bar" rfl rfl⟩

/-- C4: a key already present in the environment is never overwritten
by the loader, whatever the file's lines are, and the loader's effect
is purely additive: the new environment is the old one plus a suffix. -/
theorem envLoader_never_overwrites (env : Env) (lines : List String) (k : String)
    (h : (envLookup env k).isSome = true) :
    envLookup (load_env_lines env lines) k = envLookup env k ∧
    ∃ added : Env, load_env_lines env lines = env ++ added :=
  ⟨load_env_lines_preserves lines env k h, load_env_lines_additive lines env⟩

/-- C4 witness: with `A=1` already set, the line `A=2` leaves `A`
bound to `1`. -/
theorem envLoader_never_overwrites_witness :
    (envLookup [("A", "1")] "A").isSome = true ∧
    envLookup (load_env_lines [("A", "1")] ["A=2"]) "A" = envLookup [("A", "1")] "A" :=
  ⟨rfl, (envLoader_never_overwrites [("A", "1")] ["A=2"] "A" rfl).1⟩

/-- C9: a line whose key is empty after trimming (such as `=value`)
causes no environment mutation, even though it contains `'='`. -/
theorem envLoader_skips_empty_key (env : Env) (raw : String)
    (h : (lineKey (pyStrip raw)).data.isEmpty = true) :
    processLine env raw = env := by
  simp only [processLine, h, Bool.not_true, Bool.false_and]
  split
  · rfl
  · split
    · rfl
    · split
      · rfl
      · simp

/-- C9 witness: the line `=value` leaves the environment unchanged. -/
theorem envLoader_skips_empty_key_witness :
    (lineKey (pyStrip "=value")).data.isEmpty = true ∧
    processLine [("X", "1")] "=value" = [("X", "1")] :=
  ⟨rfl, envLoader_skips_empty_key [("X", "1")] "=value" rfl⟩

/-- C10: when the same key occurs on several lines and was not in the
environment before (nor set by any earlier line), the first occurrence
wins: the key gets that line's value and every later line is ignored. -/
theorem envLoader_first_occurrence_wins (env : Env) (pre : List String)
    (raw : String) (post : List String) (k v : String)
    (h1 : envLookup (load_env_lines env pre) k = none)
    (h2 : specParseLine raw = some (k, v)) :
    envLookup (load_env_lines env (pre ++ raw :: post)) k = some v := by
  have hset : envLookup (processLine (load_env_lines env pre) raw) k = some v :=
    processLine_sets _ raw k v h2 h1
  have heq : load_env_lines env (pre ++ raw :: post)
      = load_env_lines (processLine (load_env_lines env pre) raw) post := by
    rw [load_env_lines_append]; rfl
  rw [heq, load_env_lines_preserves post _ k (by rw [hset]; rfl), hset]

/-- C10 witness: with lines `A=1` then `A=2` the key `A` gets `1`. -/
theorem envLoader_first_occurrence_wins_witness :
    envLookup (load_env_lines [] []) "A" = none ∧
    specParseLine "A=1" = some ("A", "1") ∧
    envLookup (load_env_lines [] ([] ++ "A=1" :: ["A=2"])) "A" = some "1" :=
  ⟨rfl, rfl, envLoader_first_occurrence_wins [] [] "A=1" ["A=2"] "A" "1" rfl rfl⟩

/-- C8: `_load_env_file` never propagates a read or decode failure:
every input produces an `.ok` result, and on a failure the environment
is unchanged and the failure is logged as a single warning. -/
theorem load_env_file_swallows_read_errors (env : Env) (file readExn : Option String) :
    (∃ r : LoadResult, _load_env_file env file readExn = .ok r) ∧
    (∀ c e, file = some c → readExn = some e →
      _load_env_file env file readExn =
        .ok ⟨env, ["⚠️  Could not parse .env file: " ++ e]⟩) := by
  constructor
  · cases file with
    | none => exact ⟨⟨env, []⟩, rfl⟩
    | some c =>
      cases readExn with
      | none => exact ⟨_, rfl⟩
      | some e => exact ⟨_, rfl⟩
  · rintro c e rfl rfl
    rfl

/-- C8 witness: a concrete failing read (`boom`) is swallowed: the
call returns `.ok`, the environment is unchanged, one warning. -/
theorem load_env_file_swallows_read_errors_witness :
    (∃ r : LoadResult, _load_env_file [("A", "1")] (some "B=2") (some "boom") = .ok r) ∧
    _load_env_file [("A", "1")] (some "B=2") (some "boom") =
      .ok ⟨[("A", "1")], ["⚠️  Could not parse .env file: boom"]⟩ :=
  ⟨(load_env_file_swallows_read_errors [("A", "1")] (some "B=2") (some "boom")).1,
   (load_env_file_swallows_read_errors [("A", "1")] (some "B=2") (some "boom")).2
     "B=2" "boom" rfl rfl⟩

/-! ### Claims about the Environment Validator -/

/-- `check_environment_variables` computed in closed form: the loader
never raises, so the call always yields `.ok`; the branch is decided
by the truthiness of `GOOGLE_API_KEY` in the post-load environment. -/
theorem check_env_eq (env : Env) (file readExn : Option String) :
    check_environment_variables env file readExn =
      (if pyFalsy (envLookup (envAfterLoad env file readExn) "GOOGLE_API_KEY") then
        match file with
        | none => .ok ⟨false, envAfterLoad env file readExn, some ENV_TEMPLATE⟩
        | some c => .ok ⟨false, envAfterLoad env file readExn, some c⟩
      else .ok ⟨true, envAfterLoad env file readExn, file⟩) := by
  cases file <;> cases readExn <;> rfl

/-- C2: when `GOOGLE_API_KEY` is absent from the environment and the
configuration file does not exist, the validator writes the fixed
template and returns false; the template's non-comment lines are
exactly the five fixed settings: the API-key placeholder, the
placeholder secret, the bind address, the port and the debug flag. -/
theorem check_env_writes_template_when_file_missing (env : Env)
    (readExn : Option String) (h : envLookup env "GOOGLE_API_KEY" = none) :
    check_environment_variables env none readExn =
      .ok ⟨false, env, some ENV_TEMPLATE⟩ ∧
    settingLines ENV_TEMPLATE =
      ["GOOGLE_API_KEY=your_gemini_api_key_here",
       "SECRET_KEY=change-this-in-production",
       "HOST=0.0.0.0",
       "PORT=5001",
       "DEBUG=True"] := by
  refine ⟨?_, rfl⟩
  rw [check_env_eq]
  simp [envAfterLoad, h, pyFalsy]

/-- C2 witness: concrete run with an unrelated variable set and no
configuration file. -/
theorem check_env_writes_template_when_file_missing_witness :
    envLookup [("OTHER", "x")] "GOOGLE_API_KEY" = none ∧
    check_environment_variables [("OTHER", "x")] none none =
      .ok ⟨false, [("OTHER", "x")], some ENV_TEMPLATE⟩ :=
  ⟨rfl, (check_env_writes_template_when_file_missing [("OTHER", "x")] none rfl).1⟩

/-- C6 (counterexample): with the key absent from the environment
beforehand and an existing configuration file that contains the key,
the validator returns TRUE, not false — the loader imports the key
first.  (The file is still left unchanged.) -/
theorem check_env_existing_file_returns_true_refuted :
    envLookup ([] : Env) "GOOGLE_API_KEY" = none ∧
    check_environment_variables [] (some "GOOGLE_API_KEY=abc") none =
      .ok ⟨true, [("GOOGLE_API_KEY", "abc")], some "GOOGLE_API_KEY=abc"⟩ :=
  ⟨rfl, rfl⟩

/-- C6 (amended): when the configuration file exists, the validator
leaves its contents byte-for-byte unchanged in every case; and when
`GOOGLE_API_KEY` is still absent or empty in the environment after the
file was loaded, it additionally returns false. -/
theorem check_env_existing_file_untouched (env : Env) (c : String)
    (readExn : Option String) :
    (∃ r : CheckResult, check_environment_variables env (some c) readExn = .ok r ∧
       r.file = some c) ∧
    (pyFalsy (envLookup (envAfterLoad env (some c) readExn) "GOOGLE_API_KEY") = true →
      check_environment_variables env (some c) readExn =
        .ok ⟨false, envAfterLoad env (some c) readExn, some c⟩) := by
  constructor
  · by_cases hb :
        pyFalsy (envLookup (envAfterLoad env (some c) readExn) "GOOGLE_API_KEY") = true
    · refine ⟨⟨false, envAfterLoad env (some c) readExn, some c⟩, ?_, rfl⟩
      rw [check_env_eq, if_pos hb]
    · refine ⟨⟨true, envAfterLoad env (some c) readExn, some c⟩, ?_, rfl⟩
      rw [check_env_eq, if_neg hb]
  · intro hb
    rw [check_env_eq, if_pos hb]

/-- C6 witness: a concrete existing file without the key: unchanged
file, result false. -/
theorem check_env_existing_file_untouched_witness :
    pyFalsy (envLookup (envAfterLoad [] (some "A=1") none) "GOOGLE_API_KEY") = true ∧
    check_environment_variables [] (some "A=1") none =
      .ok ⟨false, envAfterLoad [] (some "A=1") none, some "A=1"⟩ ∧
    (∃ r : CheckResult, check_environment_variables [] (some "A=1") none = .ok r ∧
       r.file = some "A=1") :=
  ⟨rfl, (check_env_existing_file_untouched [] "A=1" none).2 rfl,
   (check_env_existing_file_untouched [] "A=1" none).1⟩

/-- C7 (counterexample): `GOOGLE_API_KEY` present in the environment
with the empty-string value: the validator returns FALSE and, the file
being absent, WRITES the template — Python truthiness treats the empty
value as missing. -/
theorem check_env_present_key_refuted :
    envLookup [("GOOGLE_API_KEY", "")] "GOOGLE_API_KEY" = some "" ∧
    check_environment_variables [("GOOGLE_API_KEY", "")] none none =
      .ok ⟨false, [("GOOGLE_API_KEY", "")], some ENV_TEMPLATE⟩ :=
  ⟨rfl, rfl⟩

/-- C7 (amended): when `GOOGLE_API_KEY` has a NON-EMPTY value in the
environment after the load (whether it came from the OS environment or
from the file), the validator returns true and performs no filesystem
write: the file after the call is exactly the file before it. -/
theorem check_env_truthy_key_no_write (env : Env) (file readExn : Option String)
    (h : pyFalsy (envLookup (envAfterLoad env file readExn) "GOOGLE_API_KEY") = false) :
    check_environment_variables env file readExn =
      .ok ⟨true, envAfterLoad env file readExn, file⟩ := by
  rw [check_env_eq, if_neg (by simp [h])]

/-- C7 witness: a concrete truthy key in the OS environment, no file:
true, and the file stays absent. -/
theorem check_env_truthy_key_no_write_witness :
    pyFalsy (envLookup
      (envAfterLoad [("GOOGLE_API_KEY", "x")] none none) "GOOGLE_API_KEY") = false ∧
    check_environment_variables [("GOOGLE_API_KEY", "x")] none none =
      .ok ⟨true, envAfterLoad [("GOOGLE_API_KEY", "x")] none none, none⟩ :=
  ⟨rfl, check_env_truthy_key_no_write [("GOOGLE_API_KEY", "x")] none none rfl⟩

/-! ### Claims about the Dependency Installer -/

/-- C3: `install_dependencies` returns false in exactly two failure
modes — a non-zero exit code (logging the captured stderr) and a
"not found" condition (logging the distinct fixed message) — and
returns true on a zero exit code. -/
theorem install_dependencies_failure_modes (o : RunOutcome) :
    ((install_dependencies o).ok = false ↔
      (∃ c sout serr, c ≠ 0 ∧ o = .completed c sout serr) ∨
      (∃ m, o = .fileNotFound m)) ∧
    (∀ c sout serr, o = RunOutcome.completed c sout serr → c ≠ 0 →
      (install_dependencies o).logs =
        ["Installing Python dependencies...",
         "❌ Failed to install dependencies: " ++ serr]) ∧
    (∀ m, o = RunOutcome.fileNotFound m →
      (install_dependencies o).logs =
        ["Installing Python dependencies...", "❌ requirements.txt not found"]) ∧
    (∀ c sout serr, o = RunOutcome.completed c sout serr → c = 0 →
      (install_dependencies o).ok = true) := by
  obtain ⟨c, sout, serr⟩ | m := o
  · by_cases hc : c = 0
    · subst hc
      refine ⟨?_, ?_, ?_, ?_⟩
      · simp [install_dependencies]
      · rintro c' sout' serr' heq hne
        injection heq with h1 _ _
        exact absurd h1.symm hne
      · rintro m heq; cases heq
      · intro _ _ _ _ _; simp [install_dependencies]
    · refine ⟨?_, ?_, ?_, ?_⟩
      · simp only [install_dependencies, if_neg hc]
        constructor
        · exact fun _ => Or.inl ⟨c, sout, serr, hc, rfl⟩
        · exact fun _ => trivial
      · rintro c' sout' serr' heq _
        injection heq with h1 h2 h3
        subst h1; subst h2; subst h3
        simp [install_dependencies, if_neg hc]
      · rintro m heq; cases heq
      · rintro c' _ _ heq h0
        injection heq with h1 _ _
        exact absurd (h1.trans h0) hc
  · refine ⟨?_, ?_, ?_, ?_⟩
    · simp [install_dependencies]
    · rintro c' sout' serr' heq _; cases heq
    · rintro m' heq; cases heq; simp [install_dependencies]
    · rintro c' _ _ heq _; cases heq

/-- C3 witness: a run that exits with code 1 and stderr `boom` gives
false and logs the stderr; a found-nothing spawn gives the fixed
message. -/
theorem install_dependencies_failure_modes_witness :
    (install_dependencies (.completed 1 "" "boom")).ok = false ∧
    (install_dependencies (.completed 1 "" "boom")).logs =
      ["Installing Python dependencies...",
       "❌ Failed to install dependencies: boom"] ∧
    (install_dependencies (.fileNotFound "pip gone")).logs =
      ["Installing Python dependencies...", "❌ requirements.txt not found"] ∧
    (install_dependencies (.completed 0 "" "")).ok = true :=
  ⟨(install_dependencies_failure_modes (.completed 1 "" "boom")).1.mpr
     (Or.inl ⟨1, "", "boom", by decide, rfl⟩),
   (install_dependencies_failure_modes (.completed 1 "" "boom")).2.1
     1 "" "boom" rfl (by decide),
   (install_dependencies_failure_modes (.fileNotFound "pip gone")).2.2.1
     "pip gone" rfl,
   (install_dependencies_failure_modes (.completed 0 "" "")).2.2.2
     0 "" "" rfl rfl⟩

/-! ### Claims about the Database Initializer -/

/-- C5: when the relational-store setup exits non-zero, the
vector-store setup is never invoked, the captured stderr is logged and
the function returns false; a result of true is only possible when
both programs exit zero, and both exiting zero does give true. -/
theorem setup_databases_short_circuit :
    (∀ (c : Int) (sout serr : String) (r2 : RunOutcome), c ≠ 0 →
      setup_databases (.completed c sout serr) r2 =
        .ok ⟨false, ["setup_database.py"],
             ["Initializing databases...",
              "Setting up SQLite governance database...",
              "❌ Database setup failed: " ++ serr]⟩) ∧
    (∀ (c : Int) (sout serr : String) (r2 : RunOutcome) (res : DbResult), c ≠ 0 →
      setup_databases (.completed c sout serr) r2 = .ok res →
      "setup_chromadb.py" ∉ res.invoked) ∧
    (∀ (r1 r2 : RunOutcome) (res : DbResult),
      setup_databases r1 r2 = .ok res → res.ok = true →
      (∃ sout serr, r1 = .completed 0 sout serr) ∧
      (∃ sout serr, r2 = .completed 0 sout serr)) ∧
    (∀ (sout1 serr1 sout2 serr2 : String),
      setup_databases (.completed 0 sout1 serr1) (.completed 0 sout2 serr2) =
        .ok ⟨true, ["setup_database.py", "setup_chromadb.py"],
             ["Initializing databases...",
              "Setting up SQLite governance database...",
              "✅ SQLite database initialized",
              "Setting up ChromaDB knowledge store...",
              "✅ ChromaDB knowledge store initialized"]⟩) := by
  refine ⟨?_, ?_, ?_, ?_⟩
  · intro c sout serr r2 hc
    simp [setup_databases, if_neg hc]
  · intro c sout serr r2 res hc heq
    rw [show setup_databases (.completed c sout serr) r2 =
          .ok ⟨false, ["setup_database.py"],
               ["Initializing databases...",
                "Setting up SQLite governance database...",
                "❌ Database setup failed: " ++ serr]⟩
        from by simp [setup_databases, if_neg hc]] at heq
    injection heq with h
    rw [← h]
    simp
  · intro r1 r2 res heq hok
    obtain ⟨c1, sout1, serr1⟩ | m1 := r1
    · by_cases hc1 : c1 = 0
      · subst hc1
        obtain ⟨c2, sout2, serr2⟩ | m2 := r2
        · by_cases hc2 : c2 = 0
          · subst hc2
            exact ⟨⟨sout1, serr1, rfl⟩, ⟨sout2, serr2, rfl⟩⟩
          · simp only [setup_databases, if_pos rfl, if_neg hc2] at heq
            injection heq with h
            rw [← h] at hok
            simp at hok
        · simp only [setup_databases, if_pos rfl] at heq
          cases heq
      · simp only [setup_databases, if_neg hc1] at heq
        injection heq with h
        rw [← h] at hok
        simp at hok
    · simp only [setup_databases] at heq
      cases heq
  · intro sout1 serr1 sout2 serr2
    rfl

/-- C5 witness: a concrete failing relational-store setup (exit 1,
stderr `boom`): only `setup_database.py` is invoked, the stderr is
logged, the result is false. -/
theorem setup_databases_short_circuit_witness :
    setup_databases (.completed 1 "" "boom") (.completed 0 "" "") =
      .ok ⟨false, ["setup_database.py"],
           ["Initializing databases...",
            "Setting up SQLite governance database...",
            "❌ Database setup failed: boom"]⟩ :=
  setup_databases_short_circuit.1 1 "" "boom" (.completed 0 "" "") (by decide)

end TrustLens
